import Mathlib

/-
Verification of the service-worker caching engine in this repository.

The repository holds four service-worker variants:
  * src/sw.js lines 1-380   ("business-pwa" variant, v5)
  * src/sw.js lines 381-550 ("business-app" variant, v1)
  * src/sw.js lines 551-1021 ("Dubai Royal Commerce" variant, v2)
  * src/unnamed/part_000    ("digital-business-app" variant, v2)

The shallow embedding below models each fetch-strategy function, activate
listener, notification-click listener and the deferred-order replay as a pure
Lean function.  A network fetch is an oracle value of type `Option Resp`
(`none` models the fetch promise rejecting); a cache is an association list
from request URL to stored response; a strategy returns the outcome handed to
the fetch event together with the cache state after all its writes (including
fire-and-forget background writes, which by design cannot influence the
returned outcome - the outcome component is computed before the write
component is consulted).
-/

namespace SW

/-- Response snapshot: status code, header list, body text and the
`Response.type` field ("basic", "cors", "opaque", ...) that the
digital-business-app variant inspects. -/
structure Resp where
  status : Nat
  headers : List (String × String)
  body : String
  rtype : String
deriving DecidableEq

/-- JS `response.ok`: status in the inclusive range 200..299. -/
def Resp.ok (r : Resp) : Bool :=
  decide (200 ≤ r.status) && decide (r.status < 300)

/-- Lookup of a header value, as `response.headers.get` (first match). -/
def Resp.header (r : Resp) (name : String) : Option String :=
  (r.headers.find? (fun p => p.1 == name)).map (fun p => p.2)

/-- Result of a network fetch: `some r` when the fetch promise resolves with
response `r` (possibly non-2xx), `none` when it rejects (network failure). -/
abbrev FetchResult : Type := Option Resp

/-- Cache contents: association list from request URL (the request identity of
a GET) to the stored response snapshot.  `put` prepends, `match` takes the
first hit, so the newest write wins, matching Cache API overwrite. -/
abbrev Cache : Type := List (String × Resp)

/-- caches.match: first stored entry for this URL, if any. -/
def cacheMatch (c : Cache) (url : String) : Option Resp :=
  (c.find? (fun p => p.1 == url)).map (fun p => p.2)

/-- cache.put: store a response under a URL (newest entry shadows older). -/
def cachePut (c : Cache) (url : String) (r : Resp) : Cache :=
  (url, r) :: c

/-- Character-list helper for JS `String.prototype.includes`: is the first
list a prefix of the second? -/
def charsPrefix : List Char → List Char → Bool
  | [], _ => true
  | _ :: _, [] => false
  | a :: as, b :: bs => a == b && charsPrefix as bs

/-- Character-list helper: does the pattern occur anywhere in the text? -/
def charsInfix (pat : List Char) : List Char → Bool
  | [] => charsPrefix pat []
  | b :: bs => charsPrefix pat (b :: bs) || charsInfix pat bs

/-- JS `s.includes(pat)` on strings. -/
def strIncludes (s pat : String) : Bool :=
  charsInfix pat.toList s.toList

/-- JS `s.startsWith(pre)` on strings. -/
def strStarts (s pre : String) : Bool :=
  charsPrefix pre.toList s.toList

/-- Outcome a strategy hands to `event.respondWith`. -/
inductive Outcome where
  /-- The handler resolved with this response. -/
  | resp (r : Resp)
  /-- The handler rethrew the original network failure. -/
  | thrown
  /-- The handler raised a fresh TypeError of its own (null dereference). -/
  | typeError
  /-- The handler resolved with `undefined` (a `caches.match` miss returned
  as-is), so no response at all was produced. -/
  | noResp
deriving DecidableEq

/-- Request attributes the business-pwa strategies consult: the URL and the
value of the Accept header (`none` when the request carries no Accept header,
in which case `request.headers.get` yields `null`). -/
structure Req where
  url : String
  accept : Option String
deriving DecidableEq

/-- Cache name of the business-pwa variant (src/sw.js line 5). -/
def CACHE_NAME : String := "business-pwa-dynamic-v5-cache"

/-- updateCacheInBackground (src/sw.js lines 238-248): re-fetch and store on a
2xx response; any failure is swallowed and leaves the cache unchanged. -/
def updateCacheInBackground (c : Cache) (url : String) (net : FetchResult) : Cache :=
  match net with
  | some r => if r.ok then cachePut c url r else c
  | none => c

/-- serveEssentialFile (src/sw.js lines 114-142).  Cache hit: return the
stored snapshot at once and refresh in the background.  Cache miss: fetch,
put the network response (with no `.ok` check - line 129 stores it
unconditionally), return it.  On fetch failure the catch block reads
`request.headers.get('accept').includes('text/html')`, which raises a
TypeError when the header is absent; otherwise it returns the cached
offline page for HTML requests and rethrows for the rest. -/
def serveEssentialFile (c : Cache) (req : Req) (net : FetchResult) : Outcome × Cache :=
  match cacheMatch c req.url with
  | some cached => (Outcome.resp cached, updateCacheInBackground c req.url net)
  | none =>
    match net with
    | some r => (Outcome.resp r, cachePut c req.url r)
    | none =>
      match req.accept with
      | none => (Outcome.typeError, c)
      | some a =>
        if strIncludes a "text/html" then
          match cacheMatch c "./offline.html" with
          | some off => (Outcome.resp off, c)
          | none => (Outcome.noResp, c)
        else (Outcome.thrown, c)

/-- serveDynamicCardPage (src/sw.js lines 145-175): network first, store 2xx
responses; on failure fall back to the exact cached match, then the cached
base `./card.html`, then whatever `caches.match('./offline.html')` yields. -/
def serveDynamicCardPage (c : Cache) (url : String) (net : FetchResult) : Outcome × Cache :=
  match net with
  | some r =>
    if r.ok then (Outcome.resp r, cachePut c url r) else (Outcome.resp r, c)
  | none =>
    match cacheMatch c url with
    | some cached => (Outcome.resp cached, c)
    | none =>
      match cacheMatch c "./card.html" with
      | some fb => (Outcome.resp fb, c)
      | none =>
        match cacheMatch c "./offline.html" with
        | some off => (Outcome.resp off, c)
        | none => (Outcome.noResp, c)

/-- serveExternalResource (src/sw.js lines 178-204): network first with a
fire-and-forget store of 2xx responses; on failure serve the cached match or
rethrow the original error. -/
def serveExternalResource (c : Cache) (url : String) (net : FetchResult) : Outcome × Cache :=
  match net with
  | some r =>
    if r.ok then (Outcome.resp r, cachePut c url r) else (Outcome.resp r, c)
  | none =>
    match cacheMatch c url with
    | some cached => (Outcome.resp cached, c)
    | none => (Outcome.thrown, c)

/-- serveNetworkFirst (src/sw.js lines 207-235): network first, store 2xx; on
failure serve the cached match, else the offline page for requests whose
Accept header includes text/html (the same null-dereference as
serveEssentialFile when the header is absent), else rethrow. -/
def serveNetworkFirst (c : Cache) (req : Req) (net : FetchResult) : Outcome × Cache :=
  match net with
  | some r =>
    if r.ok then (Outcome.resp r, cachePut c req.url r) else (Outcome.resp r, c)
  | none =>
    match cacheMatch c req.url with
    | some cached => (Outcome.resp cached, c)
    | none =>
      match req.accept with
      | none => (Outcome.typeError, c)
      | some a =>
        if strIncludes a "text/html" then
          match cacheMatch c "./offline.html" with
          | some off => (Outcome.resp off, c)
          | none => (Outcome.noResp, c)
        else (Outcome.thrown, c)

/-- Constructor for `new Response(body, init)`: synthesized responses have
`Response.type` "default"; status defaults to 200 when the init omits it. -/
def mkResp (status : Nat) (headers : List (String × String)) (body : String) : Resp :=
  { status := status, headers := headers, body := body, rtype := "default" }

/-- Cache names of the Dubai Royal Commerce variant (src/sw.js lines 557-559). -/
def STATIC_CACHE : String := "dubai-static-v1"

/-- Dynamic cache of the Dubai variant. -/
def DYNAMIC_CACHE : String := "dubai-dynamic-v1"

/-- API cache of the Dubai variant. -/
def API_CACHE : String := "dubai-api-v1"

/-- Offline fallback body that handleApiRequest synthesizes (src/sw.js
line 675): `JSON.stringify({ error: 'You are offline. Please check your
connection.' })` with status 503 and JSON content type. -/
def apiOfflineResponse : Resp :=
  mkResp 503 [("Content-Type", "application/json")]
    "\x7b\"error\":\"You are offline. Please check your connection.\"\x7d"

/-- handleApiRequest (src/sw.js lines 653-679): network first, store 2xx into
the API cache; on failure serve the cached match, else the synthesized 503
offline JSON response.  Nothing is ever rethrown. -/
def handleApiRequest (c : Cache) (url : String) (net : FetchResult) : Outcome × Cache :=
  match net with
  | some r =>
    if r.ok then (Outcome.resp r, cachePut c url r) else (Outcome.resp r, c)
  | none =>
    match cacheMatch c url with
    | some cached => (Outcome.resp cached, c)
    | none => (Outcome.resp apiOfflineResponse, c)

/-- Placeholder SVG that handleImageRequest synthesizes when offline
(src/sw.js line 702). -/
def placeholderSvgBody : String :=
  "<svg width=\"400\" height=\"300\" xmlns=\"http://www.w3.org/2000/svg\"><rect width=\"400\" height=\"300\" fill=\"#f1f5f9\"/><text x=\"50%\" y=\"50%\" font-family=\"Arial\" font-size=\"16\" fill=\"#64748b\" text-anchor=\"middle\">Image Offline</text></svg>"

/-- Synthesized placeholder image response: `new Response(svg, { headers:
{ 'Content-Type': 'image/svg+xml' } })`, default status 200. -/
def placeholderImage : Resp :=
  mkResp 200 [("Content-Type", "image/svg+xml")] placeholderSvgBody

/-- handleImageRequest (src/sw.js lines 682-706): cache first; on a miss
fetch, store 2xx into the dynamic cache and return the network response; if
the fetch throws, return the generated placeholder image. -/
def handleImageRequest (c : Cache) (url : String) (net : FetchResult) : Outcome × Cache :=
  match cacheMatch c url with
  | some cached => (Outcome.resp cached, c)
  | none =>
    match net with
    | some r =>
      if r.ok then (Outcome.resp r, cachePut c url r) else (Outcome.resp r, c)
    | none => (Outcome.resp placeholderImage, c)

/-- Inline offline page that handleNavigationRequest synthesizes as its
ultimate fallback (src/sw.js lines 738-784); indentation condensed, text
kept verbatim. -/
def offlinePageHtml : String :=
  "<!DOCTYPE html>\n<html>\n<head>\n<title>Offline - Dubai Royal Commerce</title>\n<meta name=\"viewport\" content=\"width=device-width, initial-scale=1\">\n<style>\nbody \x7b\nfont-family: \x27Inter\x27, sans-serif;\nbackground: linear-gradient(135deg, #bf9530, #aa771c);\ncolor: white;\ndisplay: flex;\njustify-content: center;\nalign-items: center;\nheight: 100vh;\nmargin: 0;\npadding: 20px;\ntext-align: center;\n\x7d\n.offline-card \x7b\nbackground: rgba(255,255,255,0.95);\nborder-radius: 32px;\npadding: 40px;\nmax-width: 400px;\nbox-shadow: 0 25px 50px -12px rgba(0,0,0,0.25);\n\x7d\nh1 \x7b color: #bf9530; margin-bottom: 20px; \x7d\np \x7b color: #1e293b; margin-bottom: 30px; \x7d\nbutton \x7b\nbackground: linear-gradient(135deg, #bf9530, #aa771c);\ncolor: white;\nborder: none;\npadding: 14px 32px;\nborder-radius: 40px;\nfont-weight: 700;\ncursor: pointer;\n\x7d\n</style>\n</head>\n<body>\n<div class=\"offline-card\">\n<i class=\"fas fa-crown\" style=\"font-size: 48px; color: #bf9530;\"></i>\n<h1>You\x27re Offline</h1>\n<p>Please check your internet connection to continue shopping at Dubai Royal Commerce.</p>\n<button onclick=\"window.location.reload()\">Try Again</button>\n</div>\n</body>\n</html>"

/-- Synthesized ultimate navigation fallback: `new Response(html, { headers:
{ 'Content-Type': 'text/html' } })`, default status 200. -/
def navOfflineResponse : Resp :=
  mkResp 200 [("Content-Type", "text/html")] offlinePageHtml

/-- handleNavigationRequest (src/sw.js lines 709-788): network first, store
2xx into the dynamic cache; on failure fall back to the exact cached match,
then the cached `/card.html`, then the synthesized inline offline page. -/
def handleNavigationRequest (c : Cache) (url : String) (net : FetchResult) : Outcome × Cache :=
  match net with
  | some r =>
    if r.ok then (Outcome.resp r, cachePut c url r) else (Outcome.resp r, c)
  | none =>
    match cacheMatch c url with
    | some cached => (Outcome.resp cached, c)
    | none =>
      match cacheMatch c "/card.html" with
      | some fb => (Outcome.resp fb, c)
      | none => (Outcome.resp navOfflineResponse, c)

/-- Synthesized reply of handleStaticRequest when both cache and network fail:
`new Response('', { status: 404 })` (src/sw.js line 810). -/
def emptyNotFound : Resp := mkResp 404 [] ""

/-- handleStaticRequest (src/sw.js lines 791-812): cache first; on a miss
fetch, store 2xx into the static cache and return the response; if the fetch
throws, return an empty 404 response instead of propagating the error. -/
def handleStaticRequest (c : Cache) (url : String) (net : FetchResult) : Outcome × Cache :=
  match cacheMatch c url with
  | some cached => (Outcome.resp cached, c)
  | none =>
    match net with
    | some r =>
      if r.ok then (Outcome.resp r, cachePut c url r) else (Outcome.resp r, c)
    | none => (Outcome.resp emptyNotFound, c)

/-- Fetch handler of src/unnamed/part_000 (lines 55-83): cache first; on a
miss fetch and return the response, storing it only when its status is
exactly 200 and its type is "basic"; if the fetch throws, return the cached
`./index.html` (or `undefined` when that too is absent). -/
def fetchHandlerPart000 (c : Cache) (url : String) (net : FetchResult) : Outcome × Cache :=
  match cacheMatch c url with
  | some cached => (Outcome.resp cached, c)
  | none =>
    match net with
    | some r =>
      if r.status == 200 && r.rtype == "basic"
      then (Outcome.resp r, cachePut c url r)
      else (Outcome.resp r, c)
    | none =>
      match cacheMatch c "./index.html" with
      | some idx => (Outcome.resp idx, c)
      | none => (Outcome.noResp, c)

/-- Activate listener of the business-pwa variant (src/sw.js lines 36-57):
given the cache names before activation, it deletes exactly those that start
with "business-pwa-" and differ from CACHE_NAME; the survivors are returned
in order. -/
def activateV1 (names : List String) : List String :=
  names.filter (fun n => !(strStarts n "business-pwa-" && !(n == CACHE_NAME)))

/-- Activate listener of the Dubai variant (src/sw.js lines 601-621): deletes
every cache name different from all three recognized names, so exactly the
recognized names present before activation survive. -/
def activateDubai (names : List String) : List String :=
  names.filter (fun n => n == STATIC_CACHE || n == DYNAMIC_CACHE || n == API_CACHE)

/-- Outcome of the POST fetch that syncOrders performs for one pending order. -/
inductive NetResult where
  /-- The fetch resolved with an ok (2xx) response. -/
  | success
  /-- The fetch resolved with a non-ok response. -/
  | failure
  /-- The fetch (or reading the stored payload) threw. -/
  | thrown
deriving DecidableEq

/-- syncOrders (src/sw.js lines 916-947): iterate the keys of the
pending-orders cache in order; re-POST each; an ok response deletes the entry
and shows one notification; a non-ok response leaves the entry and the loop
continues; a thrown fetch escapes the loop into the outer catch, ending the
pass with every later entry unattempted.  The queue is the list of pending
order URLs; `net` tells how the network treats each.  Returns the remaining
queue, the number of notifications shown, and the attempted items in order. -/
def syncOrders (net : String → NetResult) : List String → List String × Nat × List String
  | [] => ([], 0, [])
  | u :: rest =>
    match net u with
    | NetResult.thrown => (u :: rest, 0, [u])
    | NetResult.success =>
      let res := syncOrders net rest
      (res.1, res.2.1 + 1, u :: res.2.2)
    | NetResult.failure =>
      let res := syncOrders net rest
      (u :: res.1, res.2.1, u :: res.2.2)

/-- An open window client: its URL and whether `'focus' in client` holds. -/
structure ClientW where
  url : String
  canFocus : Bool
deriving DecidableEq

/-- Side effect of a notification-click handler. -/
inductive ClickOutcome where
  /-- No focus or open happens. -/
  | noop
  /-- An already-open client with this URL is brought forward. -/
  | focus (url : String)
  /-- A new window is opened at this URL. -/
  | openWindow (url : String)
deriving DecidableEq

/-- Notification-click listener of the Dubai variant (src/sw.js lines
863-900): "dismiss" does nothing; "track" opens the tracking page directly;
every other action scans the open clients for the first whose URL contains
the target and is focusable, focusing it, and opens a new window only when
none matches. -/
def notificationClickDubai (action : String) (dataUrl : Option String)
    (cs : List ClientW) : ClickOutcome :=
  let urlToOpen := dataUrl.getD "/card.html"
  if action == "dismiss" then ClickOutcome.noop
  else if action == "track" then ClickOutcome.openWindow "/card.html?page=track"
  else
    match cs.find? (fun cl => strIncludes cl.url urlToOpen && cl.canFocus) with
    | some cl => ClickOutcome.focus cl.url
    | none => ClickOutcome.openWindow urlToOpen

/-- Notification-click listener of the business-pwa variant (src/sw.js lines
305-330): only the "open" action or a default click (empty action) do
anything; they scan for the first focusable client whose URL equals the
target and focus it, opening a new window only when none matches. -/
def notificationClickV1 (action : String) (dataUrl : Option String)
    (cs : List ClientW) : ClickOutcome :=
  if action == "open" || action == "" then
    let urlToOpen := dataUrl.getD "./"
    match cs.find? (fun cl => cl.url == urlToOpen && cl.canFocus) with
    | some cl => ClickOutcome.focus cl.url
    | none => ClickOutcome.openWindow urlToOpen
  else ClickOutcome.noop

/-- Notification-click listener of src/unnamed/part_000 (lines 107-124):
always scans for a focusable client at "./" and focuses it, otherwise opens
a new window there. -/
def notificationClickPart000 (cs : List ClientW) : ClickOutcome :=
  match cs.find? (fun cl => cl.url == "./" && cl.canFocus) with
  | some cl => ClickOutcome.focus cl.url
  | none => ClickOutcome.openWindow "./"

/-- Concrete 2xx HTML response used by witnesses. -/
def sampleResp : Resp :=
  { status := 200, headers := [("Content-Type", "text/html")],
    body := "<html>A</html>", rtype := "basic" }

/-- Concrete non-2xx response used by the caching counterexample. -/
def notFoundResp : Resp :=
  { status := 404, headers := [], body := "not found", rtype := "basic" }

/-- An entry of `cachePut c url rr` is an old entry of `c` or carries `rr`. -/
lemma mem_cachePut_elim {c : Cache} {url k : String} {rr r : Resp}
    (h : (k, r) ∈ cachePut c url rr) : (k, r) ∈ c ∨ r = rr := by
  rcases List.mem_cons.mp h with h | h
  · exact Or.inr (Prod.ext_iff.mp h).2
  · exact Or.inl h

/-- Background refresh only ever adds 2xx responses to the cache. -/
lemma updateBg_mem {c : Cache} {url k : String} {net : FetchResult} {r : Resp}
    (h : (k, r) ∈ updateCacheInBackground c url net) :
    (k, r) ∈ c ∨ r.ok = true := by
  unfold updateCacheInBackground at h
  repeat' split at h
  all_goals first
    | exact Or.inl h
    | (rename_i hok
       rcases mem_cachePut_elim h with hc | he
       · exact Or.inl hc
       · exact Or.inr (he ▸ hok))

/-- A response passing the digital-business-app storage guard (status exactly
200, type "basic") is in particular a 2xx response. -/
lemma ok_of_status200 {r : Resp} (h : (r.status == 200 && r.rtype == "basic") = true) :
    r.ok = true := by
  have h200 : r.status = 200 := by
    simp only [Bool.and_eq_true, beq_iff_eq] at h
    exact h.1
  unfold Resp.ok
  rw [h200]
  decide

/-- Network oracle for the replay counterexample: the first pending order's
POST throws, the second one's would succeed. -/
def netThrowOnFirst : String → NetResult :=
  fun u => if u == "https://api/orders/1" then NetResult.thrown else NetResult.success

/-- Network oracle delivering every pending order. -/
def netAllSuccess : String → NetResult := fun _ => NetResult.success

end SW

namespace SW

/-- Claim C1: when the network fetch for an api-call request fails and no
cached snapshot matches, handleApiRequest returns the synthesized response of
status 503 whose JSON body carries an `error` field and whose content type is
application/json; on every input it resolves with a response and never lets
an exception reach the caller. -/
theorem apiRequest_offline_synthesizes_503 :
    (∀ (c : Cache) (url : String), cacheMatch c url = Option.none →
      (handleApiRequest c url Option.none).1 = Outcome.resp apiOfflineResponse) ∧
    apiOfflineResponse.status = 503 ∧
    apiOfflineResponse.header "Content-Type" = some "application/json" ∧
    strIncludes apiOfflineResponse.body "\"error\"" = true ∧
    (∀ (c : Cache) (url : String) (net : FetchResult),
      ∃ r, (handleApiRequest c url net).1 = Outcome.resp r) := by
  refine ⟨?_, rfl, rfl, by decide, ?_⟩
  · intro c url h
    simp [handleApiRequest, h]
  · intro c url net
    unfold handleApiRequest
    repeat' split
    all_goals exact ⟨_, rfl⟩

/-- Witness for C1: a failed Supabase fetch against the empty cache yields
the synthesized 503 offline response. -/
theorem apiRequest_offline_synthesizes_503_witness :
    (handleApiRequest [] "https://xyz.supabase.co/rest/v1/orders" Option.none).1
      = Outcome.resp apiOfflineResponse :=
  apiRequest_offline_synthesizes_503.1 [] "https://xyz.supabase.co/rest/v1/orders" rfl

/-- Claim C2: when a stored snapshot exists for an essential-static request,
serveEssentialFile returns exactly that snapshot whatever the network oracle
does (the background refresh cannot change the returned bytes), and in
particular a failing refresh leaves both the returned response and the cache
untouched. -/
theorem essential_cacheHit_returns_snapshot :
    ∀ (c : Cache) (req : Req) (cached : Resp) (net : FetchResult),
      cacheMatch c req.url = some cached →
      (serveEssentialFile c req net).1 = Outcome.resp cached ∧
      serveEssentialFile c req Option.none = (Outcome.resp cached, c) := by
  intro c req cached net h
  constructor
  · simp [serveEssentialFile, h]
  · simp [serveEssentialFile, h, updateCacheInBackground]

/-- Witness for C2: a cached card.html is served verbatim while the network
is down. -/
theorem essential_cacheHit_returns_snapshot_witness :
    (serveEssentialFile [("./card.html", sampleResp)]
        { url := "./card.html", accept := some "text/html" } Option.none).1
      = Outcome.resp sampleResp :=
  (essential_cacheHit_returns_snapshot [("./card.html", sampleResp)]
    { url := "./card.html", accept := some "text/html" } sampleResp Option.none rfl).1

/-- Claim C7: an image-class request with the network unreachable and no
stored snapshot gets the generated placeholder: content type image/svg+xml
with the literal text "Image Offline" in the body; handleImageRequest always
resolves with a response, never propagating the failure. -/
theorem imageRequest_offline_placeholder :
    (∀ (c : Cache) (url : String), cacheMatch c url = Option.none →
      (handleImageRequest c url Option.none).1 = Outcome.resp placeholderImage) ∧
    placeholderImage.header "Content-Type" = some "image/svg+xml" ∧
    strIncludes placeholderImage.body "Image Offline" = true ∧
    (∀ (c : Cache) (url : String) (net : FetchResult),
      ∃ r, (handleImageRequest c url net).1 = Outcome.resp r) := by
  refine ⟨?_, rfl, by decide, ?_⟩
  · intro c url h
    simp [handleImageRequest, h]
  · intro c url net
    unfold handleImageRequest
    repeat' split
    all_goals exact ⟨_, rfl⟩

/-- Witness for C7: an unsplash image fetched offline against the empty cache
yields the placeholder SVG. -/
theorem imageRequest_offline_placeholder_witness :
    (handleImageRequest [] "https://images.unsplash.com/photo-1" Option.none).1
      = Outcome.resp placeholderImage :=
  imageRequest_offline_placeholder.1 [] "https://images.unsplash.com/photo-1" rfl

/-- Claim C10: the catch branches of serveEssentialFile and serveNetworkFirst
dereference `request.headers.get('accept')` without a null check, so a GET
request carrying no Accept header whose fetch fails makes the error-handling
branch itself raise a fresh TypeError instead of returning a fallback or
rethrowing the original failure. -/
theorem errorBranch_typeError_on_missing_accept :
    (serveEssentialFile [] { url := "./manifest.json", accept := Option.none }
        Option.none).1 = Outcome.typeError ∧
    (serveNetworkFirst [] { url := "./api/data.json", accept := Option.none }
        Option.none).1 = Outcome.typeError :=
  ⟨rfl, rfl⟩

/-- Claim C3: when the network fetch for a dynamic-page request fails, both
serveDynamicCardPage and handleNavigationRequest fall back in exactly the
order exact-match snapshot, generic card.html fallback, offline substitute;
for every request identity the result is a fallback response
(handleNavigationRequest unconditionally, serveDynamicCardPage as soon as the
install-seeded offline page is stored). -/
theorem dynamicPage_fallback_order :
    (∀ (c : Cache) (url : String) (cached : Resp), cacheMatch c url = some cached →
      (serveDynamicCardPage c url Option.none).1 = Outcome.resp cached) ∧
    (∀ (c : Cache) (url : String) (fb : Resp), cacheMatch c url = Option.none →
      cacheMatch c "./card.html" = some fb →
      (serveDynamicCardPage c url Option.none).1 = Outcome.resp fb) ∧
    (∀ (c : Cache) (url : String) (off : Resp), cacheMatch c url = Option.none →
      cacheMatch c "./card.html" = Option.none →
      cacheMatch c "./offline.html" = some off →
      (serveDynamicCardPage c url Option.none).1 = Outcome.resp off) ∧
    (∀ (c : Cache) (url : String) (off : Resp), cacheMatch c "./offline.html" = some off →
      ∃ r, (serveDynamicCardPage c url Option.none).1 = Outcome.resp r) ∧
    (∀ (c : Cache) (url : String) (cached : Resp), cacheMatch c url = some cached →
      (handleNavigationRequest c url Option.none).1 = Outcome.resp cached) ∧
    (∀ (c : Cache) (url : String) (fb : Resp), cacheMatch c url = Option.none →
      cacheMatch c "/card.html" = some fb →
      (handleNavigationRequest c url Option.none).1 = Outcome.resp fb) ∧
    (∀ (c : Cache) (url : String), cacheMatch c url = Option.none →
      cacheMatch c "/card.html" = Option.none →
      (handleNavigationRequest c url Option.none).1 = Outcome.resp navOfflineResponse) ∧
    (∀ (c : Cache) (url : String),
      ∃ r, (handleNavigationRequest c url Option.none).1 = Outcome.resp r) := by
  refine ⟨?_, ?_, ?_, ?_, ?_, ?_, ?_, ?_⟩
  · intro c url cached h
    simp [serveDynamicCardPage, h]
  · intro c url fb h1 h2
    simp [serveDynamicCardPage, h1, h2]
  · intro c url off h1 h2 h3
    simp [serveDynamicCardPage, h1, h2, h3]
  · intro c url off hoff
    rcases h1 : cacheMatch c url with _ | x
    · rcases h2 : cacheMatch c "./card.html" with _ | y
      · exact ⟨off, by simp [serveDynamicCardPage, h1, h2, hoff]⟩
      · exact ⟨y, by simp [serveDynamicCardPage, h1, h2]⟩
    · exact ⟨x, by simp [serveDynamicCardPage, h1]⟩
  · intro c url cached h
    simp [handleNavigationRequest, h]
  · intro c url fb h1 h2
    simp [handleNavigationRequest, h1, h2]
  · intro c url h1 h2
    simp [handleNavigationRequest, h1, h2]
  · intro c url
    unfold handleNavigationRequest
    repeat' split
    all_goals exact ⟨_, rfl⟩

/-- Witness for C3: with only the offline page stored, an offline request for
a card page with an id is answered by the offline substitute. -/
theorem dynamicPage_fallback_order_witness :
    (serveDynamicCardPage [("./offline.html", sampleResp)]
        "./card.html?id=7" Option.none).1 = Outcome.resp sampleResp :=
  dynamicPage_fallback_order.2.2.1 [("./offline.html", sampleResp)]
    "./card.html?id=7" sampleResp rfl rfl rfl

/-- Counterexample to C8 as stated: handleStaticRequest, one of the cited
essential-static strategies, answers a cache-miss network failure with a
fabricated empty 404 response instead of propagating the failure. -/
theorem staticRequest_fabricates_404_cex :
    (handleStaticRequest [] "/app.js" Option.none).1 = Outcome.resp emptyNotFound ∧
    emptyNotFound.status = 404 ∧
    emptyNotFound.body = "" ∧
    ¬ (handleStaticRequest [] "/app.js" Option.none).1 = Outcome.thrown := by
  exact ⟨rfl, rfl, rfl, by decide⟩

/-- Claim C8 as amended: serveEssentialFile, on a cache miss with a failed
fetch and an Accept header present, returns the stored offline substitute
when the header includes text/html and rethrows the failure otherwise; the
Dubai handleStaticRequest never propagates - it fabricates an empty 404
response on every such failure. -/
theorem essential_failure_fallback_amended :
    (∀ (c : Cache) (req : Req) (a : String) (off : Resp),
      req.accept = some a → strIncludes a "text/html" = true →
      cacheMatch c req.url = Option.none → cacheMatch c "./offline.html" = some off →
      (serveEssentialFile c req Option.none).1 = Outcome.resp off) ∧
    (∀ (c : Cache) (req : Req) (a : String),
      req.accept = some a → strIncludes a "text/html" = false →
      cacheMatch c req.url = Option.none →
      (serveEssentialFile c req Option.none).1 = Outcome.thrown) ∧
    (∀ (c : Cache) (url : String), cacheMatch c url = Option.none →
      (handleStaticRequest c url Option.none).1 = Outcome.resp emptyNotFound) := by
  refine ⟨?_, ?_, ?_⟩
  · intro c req a off ha hh hm hoff
    simp [serveEssentialFile, hm, ha, hh, hoff]
  · intro c req a ha hh hm
    simp [serveEssentialFile, hm, ha, hh]
  · intro c url hm
    simp [handleStaticRequest, hm]

/-- Witness for the amended C8: an HTML-accepting essential request served
offline from a cache holding only the offline page gets that page. -/
theorem essential_failure_fallback_amended_witness :
    (serveEssentialFile [("./offline.html", sampleResp)]
        { url := "./card.html", accept := some "text/html" } Option.none).1
      = Outcome.resp sampleResp :=
  essential_failure_fallback_amended.1 [("./offline.html", sampleResp)]
    { url := "./card.html", accept := some "text/html" } "text/html" sampleResp
    rfl (by decide) rfl rfl

/-- Counterexample to C4 as stated: on a cache miss serveEssentialFile stores
the network response with no 2xx check (src/sw.js line 129), so a 404 lands
in the artifact store. -/
theorem essential_miss_caches_non2xx_cex :
    notFoundResp.ok = false ∧
    (serveEssentialFile [] { url := "./card.html", accept := some "text/html" }
        (some notFoundResp)).2 = [("./card.html", notFoundResp)] :=
  ⟨rfl, rfl⟩

/-- Claim C4 as amended: every strategy code path stores only 2xx network
responses - serveDynamicCardPage, serveExternalResource, serveNetworkFirst,
the background refresh (hence serveEssentialFile's cache-hit path), the four
Dubai handlers and the digital-business-app fetch handler - except
serveEssentialFile's cache-miss path, which stores the fetched response
unconditionally, 2xx or not. -/
theorem only_ok_responses_cached_amended :
    ∀ (c : Cache) (url : String) (req : Req) (net : FetchResult) (k : String) (r : Resp),
      ((k, r) ∈ (serveDynamicCardPage c url net).2 → (k, r) ∈ c ∨ r.ok = true) ∧
      ((k, r) ∈ (serveExternalResource c url net).2 → (k, r) ∈ c ∨ r.ok = true) ∧
      ((k, r) ∈ (serveNetworkFirst c req net).2 → (k, r) ∈ c ∨ r.ok = true) ∧
      ((k, r) ∈ updateCacheInBackground c url net → (k, r) ∈ c ∨ r.ok = true) ∧
      (∀ x, cacheMatch c req.url = some x →
        (k, r) ∈ (serveEssentialFile c req net).2 → (k, r) ∈ c ∨ r.ok = true) ∧
      ((k, r) ∈ (handleApiRequest c url net).2 → (k, r) ∈ c ∨ r.ok = true) ∧
      ((k, r) ∈ (handleImageRequest c url net).2 → (k, r) ∈ c ∨ r.ok = true) ∧
      ((k, r) ∈ (handleNavigationRequest c url net).2 → (k, r) ∈ c ∨ r.ok = true) ∧
      ((k, r) ∈ (handleStaticRequest c url net).2 → (k, r) ∈ c ∨ r.ok = true) ∧
      ((k, r) ∈ (fetchHandlerPart000 c url net).2 → (k, r) ∈ c ∨ r.ok = true) ∧
      (∀ rr, cacheMatch c req.url = Option.none →
        (serveEssentialFile c req (some rr)).2 = cachePut c req.url rr) := by
  intro c url req net k r
  refine ⟨?_, ?_, ?_, ?_, ?_, ?_, ?_, ?_, ?_, ?_, ?_⟩
  · intro hmem
    unfold serveDynamicCardPage at hmem
    repeat' split at hmem
    all_goals first
      | exact Or.inl hmem
      | (rename_i hok
         rcases mem_cachePut_elim hmem with hc | he
         · exact Or.inl hc
         · exact Or.inr (he ▸ hok))
  · intro hmem
    unfold serveExternalResource at hmem
    repeat' split at hmem
    all_goals first
      | exact Or.inl hmem
      | (rename_i hok
         rcases mem_cachePut_elim hmem with hc | he
         · exact Or.inl hc
         · exact Or.inr (he ▸ hok))
  · intro hmem
    unfold serveNetworkFirst at hmem
    repeat' split at hmem
    all_goals first
      | exact Or.inl hmem
      | (rename_i hok
         rcases mem_cachePut_elim hmem with hc | he
         · exact Or.inl hc
         · exact Or.inr (he ▸ hok))
  · exact updateBg_mem
  · intro x hx hmem
    simp only [serveEssentialFile, hx] at hmem
    exact updateBg_mem hmem
  · intro hmem
    unfold handleApiRequest at hmem
    repeat' split at hmem
    all_goals first
      | exact Or.inl hmem
      | (rename_i hok
         rcases mem_cachePut_elim hmem with hc | he
         · exact Or.inl hc
         · exact Or.inr (he ▸ hok))
  · intro hmem
    unfold handleImageRequest at hmem
    repeat' split at hmem
    all_goals first
      | exact Or.inl hmem
      | (rename_i hok
         rcases mem_cachePut_elim hmem with hc | he
         · exact Or.inl hc
         · exact Or.inr (he ▸ hok))
  · intro hmem
    unfold handleNavigationRequest at hmem
    repeat' split at hmem
    all_goals first
      | exact Or.inl hmem
      | (rename_i hok
         rcases mem_cachePut_elim hmem with hc | he
         · exact Or.inl hc
         · exact Or.inr (he ▸ hok))
  · intro hmem
    unfold handleStaticRequest at hmem
    repeat' split at hmem
    all_goals first
      | exact Or.inl hmem
      | (rename_i hok
         rcases mem_cachePut_elim hmem with hc | he
         · exact Or.inl hc
         · exact Or.inr (he ▸ hok))
  · intro hmem
    unfold fetchHandlerPart000 at hmem
    repeat' split at hmem
    all_goals first
      | exact Or.inl hmem
      | (rename_i hcond
         rcases mem_cachePut_elim hmem with hc | he
         · exact Or.inl hc
         · exact Or.inr (he ▸ ok_of_status200 hcond))
  · intro rr hm
    simp [serveEssentialFile, hm]

/-- Witness for the amended C4: an old cache entry surviving a failed dynamic
fetch is accounted for by the old-entry disjunct. -/
theorem only_ok_responses_cached_amended_witness :
    ("a", sampleResp) ∈ ([("a", sampleResp)] : Cache) ∨ sampleResp.ok = true :=
  (only_ok_responses_cached_amended [("a", sampleResp)] "u"
      { url := "u", accept := Option.none } Option.none "a" sampleResp).1
    (by decide)

/-- Counterexample to C5 as stated: the business-pwa activate listener keeps
any cache name outside its own prefix, so a stale foreign-named generation
survives activation even though it is not part of the active mapping. -/
theorem activateV1_foreign_name_survives_cex :
    activateV1 ["digital-business-app-v2", CACHE_NAME]
      = ["digital-business-app-v2", CACHE_NAME] ∧
    ¬ "digital-business-app-v2" = CACHE_NAME :=
  ⟨rfl, by decide⟩

/-- Claim C5 as amended: after the Dubai activate listener runs, exactly the
recognized generation names survive (every unrecognized name present before
is deleted); the business-pwa listener instead keeps a name iff it is
CACHE_NAME or lies outside the "business-pwa-" prefix, so only same-prefix
stale generations are deleted. -/
theorem activate_cleanup_amended :
    ∀ (names : List String) (n : String),
      ((n ∈ activateDubai names) ↔
        (n ∈ names ∧ (n = STATIC_CACHE ∨ n = DYNAMIC_CACHE ∨ n = API_CACHE))) ∧
      ((n ∈ activateV1 names) ↔
        (n ∈ names ∧ (n = CACHE_NAME ∨ strStarts n "business-pwa-" = false))) := by
  intro names n
  constructor
  · simp [activateDubai, List.mem_filter]
    tauto
  · simp [activateV1, List.mem_filter]
    tauto

/-- Witness for the amended C5: an unrecognized name present before Dubai
activation is gone afterwards. -/
theorem activate_cleanup_amended_witness :
    ¬ "old-cache" ∈ activateDubai ["dubai-static-v1", "old-cache"] := by
  intro hx
  have h := ((activate_cleanup_amended ["dubai-static-v1", "old-cache"] "old-cache").1).mp hx
  rcases h.2 with h | h | h
  all_goals exact absurd h (by decide)

/-- Counterexample to C6 as stated: with two queued orders whose first POST
throws, the pass aborts - the second item is never attempted in that pass
(and no attempt counter exists to increment). -/
theorem syncOrders_throw_aborts_pass_cex :
    syncOrders netThrowOnFirst ["https://api/orders/1", "https://api/orders/2"]
      = (["https://api/orders/1", "https://api/orders/2"], 0, ["https://api/orders/1"]) ∧
    ¬ "https://api/orders/2" ∈ (syncOrders netThrowOnFirst
        ["https://api/orders/1", "https://api/orders/2"]).2.2 :=
  ⟨rfl, by decide⟩

/-- Claim C6 as amended: a replay pass attempts queued orders in FIFO order
(the attempted items are an initial segment of the queue, each at most once
per pass); a successful delivery removes exactly that item and triggers one
notification; a delivery resolving non-2xx leaves the item unchanged (the
code keeps no attempt counter) and later items are still attempted; but a
delivery that throws aborts the pass, leaving the throwing item and every
later item in the queue unattempted.  When no attempt throws, every item is
attempted. -/
theorem syncOrders_replay_amended :
    ∀ (net : String → NetResult) (items : List String),
      (syncOrders net items).2.2 = items.take (syncOrders net items).2.2.length ∧
      (syncOrders net items).1 =
        ((syncOrders net items).2.2.filter (fun u => !(net u == NetResult.success)))
          ++ items.drop (syncOrders net items).2.2.length ∧
      (syncOrders net items).2.1 =
        ((syncOrders net items).2.2.filter (fun u => net u == NetResult.success)).length ∧
      ((∀ u ∈ items, ¬ net u = NetResult.thrown) → (syncOrders net items).2.2 = items) := by
  intro net items
  induction items with
  | nil => exact ⟨rfl, rfl, rfl, fun _ => rfl⟩
  | cons u rest ih =>
    obtain ⟨ih1, ih2, ih3, ih4⟩ := ih
    cases hnet : net u with
    | thrown =>
      have hb : (net u == NetResult.success) = false := by rw [hnet]; rfl
      refine ⟨?_, ?_, ?_, ?_⟩
      · simp [syncOrders, hnet]
      · simp [syncOrders, hnet, hb]
      · simp [syncOrders, hnet, hb]
      · intro hall
        exact absurd hnet (hall u (by simp))
    | success =>
      have hb : (net u == NetResult.success) = true := by rw [hnet]; rfl
      have e : syncOrders net (u :: rest) =
          ((syncOrders net rest).1, (syncOrders net rest).2.1 + 1,
            u :: (syncOrders net rest).2.2) := by
        simp [syncOrders, hnet]
      refine ⟨?_, ?_, ?_, ?_⟩
      · rw [e]
        simp only [List.length_cons, List.take_succ_cons]
        rw [← ih1]
      · rw [e]
        simp only [List.filter_cons, hb, Bool.not_true, if_neg, List.length_cons,
          List.drop_succ_cons, Bool.false_eq_true, not_false_eq_true]
        exact ih2
      · rw [e]
        simp only [List.filter_cons, hb, if_pos, List.length_cons]
        exact congrArg (· + 1) ih3
      · intro hall
        rw [e]
        have h4 := ih4 (fun v hv => hall v (by simp [hv]))
        rw [h4]
    | failure =>
      have hb : (net u == NetResult.success) = false := by rw [hnet]; rfl
      have e : syncOrders net (u :: rest) =
          (u :: (syncOrders net rest).1, (syncOrders net rest).2.1,
            u :: (syncOrders net rest).2.2) := by
        simp [syncOrders, hnet]
      refine ⟨?_, ?_, ?_, ?_⟩
      · rw [e]
        simp only [List.length_cons, List.take_succ_cons]
        rw [← ih1]
      · rw [e]
        simp only [List.filter_cons, hb, Bool.not_false, if_pos, List.length_cons,
          List.drop_succ_cons, List.cons_append]
        rw [ih2]
      · rw [e]
        simp only [List.filter_cons, hb, Bool.false_eq_true, not_false_eq_true, if_neg]
        exact ih3
      · intro hall
        rw [e]
        have h4 := ih4 (fun v hv => hall v (by simp [hv]))
        rw [h4]

/-- Witness for the amended C6: with a fully reachable network both queued
orders are attempted. -/
theorem syncOrders_replay_amended_witness :
    (syncOrders netAllSuccess ["o1", "o2"]).2.2 = ["o1", "o2"] :=
  (syncOrders_replay_amended netAllSuccess ["o1", "o2"]).2.2.2
    (fun u _ h => by simp [netAllSuccess] at h)

/-- Counterexample to C9 as stated: the Dubai "track" action is not a
dismiss, yet with a focusable window already open at the exact target URL the
handler opens a new window instead of bringing the open one forward. -/
theorem dubai_track_skips_dedup_cex :
    notificationClickDubai "track" Option.none
        [{ url := "/card.html?page=track", canFocus := true }]
      = ClickOutcome.openWindow "/card.html?page=track" ∧
    ¬ "track" = "dismiss" ∧
    strIncludes "/card.html?page=track" "/card.html?page=track" = true :=
  ⟨rfl, by decide, by decide⟩

/-- Claim C9 as amended: for the open/default actions every listener first
scans the open views - if a matching focusable view exists the outcome is a
focus, and a new window is opened only when none matches; "dismiss" does
nothing; but the Dubai "track" action always opens a new window without any
deduplication scan. -/
theorem notificationClick_dedup_amended :
    (∀ (action : String) (dataUrl : Option String) (cs : List ClientW),
      ¬ action = "dismiss" → ¬ action = "track" →
      ((∃ cl ∈ cs, strIncludes cl.url (dataUrl.getD "/card.html") = true ∧ cl.canFocus = true) →
        ∃ u, notificationClickDubai action dataUrl cs = ClickOutcome.focus u) ∧
      ((∀ cl ∈ cs, ¬ (strIncludes cl.url (dataUrl.getD "/card.html") = true ∧ cl.canFocus = true)) →
        notificationClickDubai action dataUrl cs
          = ClickOutcome.openWindow (dataUrl.getD "/card.html"))) ∧
    (∀ (dataUrl : Option String) (cs : List ClientW),
      notificationClickDubai "track" dataUrl cs
        = ClickOutcome.openWindow "/card.html?page=track") ∧
    (∀ (dataUrl : Option String) (cs : List ClientW),
      notificationClickDubai "dismiss" dataUrl cs = ClickOutcome.noop) ∧
    (∀ (action : String) (dataUrl : Option String) (cs : List ClientW),
      action = "open" ∨ action = "" →
      ((∃ cl ∈ cs, cl.url = dataUrl.getD "./" ∧ cl.canFocus = true) →
        ∃ u, notificationClickV1 action dataUrl cs = ClickOutcome.focus u) ∧
      ((∀ cl ∈ cs, ¬ (cl.url = dataUrl.getD "./" ∧ cl.canFocus = true)) →
        notificationClickV1 action dataUrl cs
          = ClickOutcome.openWindow (dataUrl.getD "./"))) ∧
    (∀ (cs : List ClientW),
      ((∃ cl ∈ cs, cl.url = "./" ∧ cl.canFocus = true) →
        ∃ u, notificationClickPart000 cs = ClickOutcome.focus u) ∧
      ((∀ cl ∈ cs, ¬ (cl.url = "./" ∧ cl.canFocus = true)) →
        notificationClickPart000 cs = ClickOutcome.openWindow "./")) := by
  refine ⟨?_, fun _ _ => rfl, fun _ _ => rfl, ?_, ?_⟩
  · intro action dataUrl cs h1 h2
    have hb1 : (action == "dismiss") = false := by simp [h1]
    have hb2 : (action == "track") = false := by simp [h2]
    constructor
    · rintro ⟨cl, hcl, hm, hf⟩
      have hs : (cs.find? (fun x =>
          strIncludes x.url (dataUrl.getD "/card.html") && x.canFocus)).isSome := by
        rw [List.find?_isSome]
        exact ⟨cl, hcl, by simp [hm, hf]⟩
      obtain ⟨found, hfound⟩ := Option.isSome_iff_exists.mp hs
      exact ⟨found.url, by simp [notificationClickDubai, hb1, hb2, hfound]⟩
    · intro hall
      have ho : cs.find? (fun x =>
          strIncludes x.url (dataUrl.getD "/card.html") && x.canFocus) = Option.none := by
        rw [List.find?_eq_none]
        intro x hx hcontra
        rw [Bool.and_eq_true] at hcontra
        exact hall x hx ⟨hcontra.1, hcontra.2⟩
      simp [notificationClickDubai, hb1, hb2, ho]
  · intro action dataUrl cs hor
    have hb : (action == "open" || action == "") = true := by
      rcases hor with h | h <;> simp [h]
    constructor
    · rintro ⟨cl, hcl, hm, hf⟩
      have hs : (cs.find? (fun x => x.url == dataUrl.getD "./" && x.canFocus)).isSome := by
        rw [List.find?_isSome]
        exact ⟨cl, hcl, by simp [hm, hf]⟩
      obtain ⟨found, hfound⟩ := Option.isSome_iff_exists.mp hs
      exact ⟨found.url, by simp [notificationClickV1, hb, hfound]⟩
    · intro hall
      have ho : cs.find? (fun x => x.url == dataUrl.getD "./" && x.canFocus) = Option.none := by
        rw [List.find?_eq_none]
        intro x hx hcontra
        rw [Bool.and_eq_true] at hcontra
        exact hall x hx ⟨by simpa using hcontra.1, hcontra.2⟩
      simp [notificationClickV1, hb, ho]
  · intro cs
    constructor
    · rintro ⟨cl, hcl, hm, hf⟩
      have hs : (cs.find? (fun x => x.url == "./" && x.canFocus)).isSome := by
        rw [List.find?_isSome]
        exact ⟨cl, hcl, by simp [hm, hf]⟩
      obtain ⟨found, hfound⟩ := Option.isSome_iff_exists.mp hs
      exact ⟨found.url, by simp [notificationClickPart000, hfound]⟩
    · intro hall
      have ho : cs.find? (fun x => x.url == "./" && x.canFocus) = Option.none := by
        rw [List.find?_eq_none]
        intro x hx hcontra
        rw [Bool.and_eq_true] at hcontra
        exact hall x hx ⟨by simpa using hcontra.1, hcontra.2⟩
      simp [notificationClickPart000, ho]

/-- Witness for the amended C9: a default open click with no view open at all
opens a fresh window at the default target. -/
theorem notificationClick_dedup_amended_witness :
    notificationClickDubai "open" Option.none [] = ClickOutcome.openWindow "/card.html" :=
  (notificationClick_dedup_amended.1 "open" Option.none [] (by decide) (by decide)).2
    (fun cl hcl => absurd hcl (List.not_mem_nil cl))

end SW
